import Mathlib

/-!
Shallow embedding of the k8s-llm-monitor server-side data plane, translated
from the Go sources, together with theorems checking the specification's
claims against it.

Modelling conventions:
* Go `float64` values are modelled as exact rationals (`ℚ`); the programs
  only add, divide and compare metric-sized quantities, where binary
  floating point agrees with exact arithmetic on all realistic inputs.
* Go `int`/`int64` are modelled as `Int`.
* Go `time.Time` is modelled as an `Int` tick count whose zero value plays
  the role of `time.Time.IsZero`.
* Go maps are modelled as association lists (`List (String × α)`) with a
  lookup that returns the zero value (or `none`) for missing keys, matching
  Go map semantics.
-/

/-! ### C1 — network analyzer final status (internal/k8s/network.go) -/

/-- Result record of `AnalyzePodCommunication` (pkg/models `CommunicationAnalysis`). -/
structure CommunicationAnalysis where
  podA : String
  podB : String
  status : String
  issues : List String
  solutions : List String
  confidence : ℚ
deriving Repr, DecidableEq

/-- Embeds `NetworkAnalyzer.determineFinalStatus` (internal/k8s/network.go):
status `connected` with confidence 0.9 and an extra solution line when the
issue list is empty, otherwise status `disconnected` with confidence 0.7. -/
def determineFinalStatus (a : CommunicationAnalysis) : CommunicationAnalysis :=
  if a.issues.length = 0 then
    { a with
      status := "connected"
      confidence := 9/10
      solutions := a.solutions ++ ["No obvious issues detected"] }
  else
    { a with status := "disconnected", confidence := 7/10 }

/-! ### C10 — pod reference parsing (internal/k8s/network.go `parsePodName`) -/

/-- Embeds Go `strings.Split` for a single-character separator, on the
character list of the string.  `goSplit sep s` always returns a non-empty
list; splitting the empty string yields `[[]]`, as in Go. -/
def goSplit (sep : Char) : List Char → List (List Char)
  | [] => [[]]
  | c :: rest =>
    if c = sep then
      [] :: goSplit sep rest
    else
      match goSplit sep rest with
      | [] => [[c]]
      | g :: gs => (c :: g) :: gs

/-- Embeds `parsePodName` (internal/k8s/network.go): split on `/`; a
two-part reference is `(namespace, name)`, anything else becomes namespace
`default` with the first split part as the pod name. -/
def parsePodName (s : List Char) : List Char × List Char :=
  match goSplit '/' s with
  | [a, b] => (a, b)
  | parts => ("default".toList, parts.headD [])

/-! ### C4 — RTT statistics (internal/k8s/rtt_tester.go) -/

/-- One RTT test outcome (pkg/models `RTTResult`). -/
structure RTTResult where
  success : Bool
  rtt : ℚ
  packetLoss : ℚ
  errorMessage : String
  timestamp : Int
  method : String
deriving Repr, DecidableEq

/-- Aggregate network test result (pkg/models `NetworkTestResult`). -/
structure NetworkTestResult where
  podA : String
  podB : String
  rttResults : List RTTResult
  averageRTT : ℚ
  successRate : ℚ
  testCount : Int
  latency : String
deriving Repr, DecidableEq

/-- Embeds `RTTTester.assessLatency` (internal/k8s/rtt_tester.go). -/
def assessLatency (rtt : ℚ) : String :=
  if rtt = 0 then "unknown"
  else if rtt < 1 then "excellent"
  else if rtt < 5 then "good"
  else if rtt < 50 then "fair"
  else if rtt < 100 then "poor"
  else "very_poor"

/-- Successful results of a test list (the loop filter in `calculateStats`). -/
def successfulResults (l : List RTTResult) : List RTTResult :=
  l.filter (fun r => r.success)

/-- Embeds `RTTTester.calculateStats` (internal/k8s/rtt_tester.go): average
RTT over successful tests, success rate over all tests, then the latency
grade of the average. -/
def calculateStats (r : NetworkTestResult) : NetworkTestResult :=
  if r.rttResults.length = 0 then
    { r with averageRTT := 0, successRate := 0, latency := "unknown" }
  else if 0 < (successfulResults r.rttResults).length then
    { r with
      averageRTT := ((successfulResults r.rttResults).map (fun x => x.rtt)).sum /
        ((successfulResults r.rttResults).length : ℚ)
      successRate := ((successfulResults r.rttResults).length : ℚ) /
        (r.rttResults.length : ℚ) * 100
      latency := assessLatency (((successfulResults r.rttResults).map (fun x => x.rtt)).sum /
        ((successfulResults r.rttResults).length : ℚ)) }
  else
    { r with averageRTT := 0, successRate := 0, latency := assessLatency 0 }

/-! ### C3 / C6 — node metrics (pkg/models/scheduler.go, pkg/metrics) -/

/-- Node metrics record (`NodeMetrics` in pkg/models/scheduler.go and
pkg/metrics; the two Go structs carry the same fields, modelled once).
GPU parallel arrays other than the count are omitted: no claim reads them. -/
structure NodeMetrics where
  nodeName : String
  cpuCapacity : Int
  cpuUsage : Int
  cpuUsageRate : ℚ
  memoryCapacity : Int
  memoryUsage : Int
  memoryUsageRate : ℚ
  diskCapacity : Int
  diskUsage : Int
  diskUsageRate : ℚ
  networkLatency : ℚ
  gpuCount : Int
  healthy : Bool
  conditions : List String
  labels : List (String × String)
deriving Repr, DecidableEq

/-- Resource constraints (`ResourceConstraints` in pkg/models/scheduler.go).
`excludeNodes` is omitted: `MeetsConstraints` never reads it. -/
structure ResourceConstraints where
  minCPUCores : Int
  minMemoryGB : Int
  minGPUs : Int
  minDiskGB : Int
  maxLatencyMs : Int
  requireGPU : Bool
  nodeLabels : List (String × String)
deriving Repr, DecidableEq

/-- Go map read `m[k]` on a string map: the value, or `""` when missing. -/
def lookupLabel : List (String × String) → String → String
  | [], _ => ""
  | kv :: rest, key => if kv.1 = key then kv.2 else lookupLabel rest key

/-- Embeds `NodeMetrics.MeetsConstraints` (pkg/models/scheduler.go), with
the same sequence of early `return false` checks. -/
def MeetsConstraints (m : NodeMetrics) (c : ResourceConstraints) : Bool :=
  if m.healthy = false then false
  else if ((m.cpuCapacity - m.cpuUsage : ℚ) / 1000 < (c.minCPUCores : ℚ)) then false
  else if ((m.memoryCapacity - m.memoryUsage : ℚ) / (1024 * 1024 * 1024) < (c.minMemoryGB : ℚ)) then false
  else if (c.requireGPU = true ∧ m.gpuCount = 0) then false
  else if (m.gpuCount < c.minGPUs) then false
  else if (c.minDiskGB > 0 ∧ (m.diskCapacity - m.diskUsage : ℚ) / (1024 * 1024 * 1024) < (c.minDiskGB : ℚ)) then false
  else if (c.maxLatencyMs > 0 ∧ (c.maxLatencyMs : ℚ) < m.networkLatency) then false
  else if (c.nodeLabels.any (fun kv => lookupLabel m.labels kv.1 ≠ kv.2)) then false
  else true

/-- The constraint predicate exactly as the specification words claim C3:
healthy, available CPU/memory bounds, GPU condition gated on `requireGPU`
with `max(1, minGPUs)`, optional disk and latency bounds, and every
`nodeLabels` entry present on the node with equal value.  Written for
comparison with `MeetsConstraints`, which is translated from the code. -/
def claimedMeetsConstraints (m : NodeMetrics) (c : ResourceConstraints) : Prop :=
  m.healthy = true ∧
  (c.minCPUCores : ℚ) ≤ (m.cpuCapacity - m.cpuUsage : ℚ) / 1000 ∧
  (c.minMemoryGB : ℚ) ≤ (m.memoryCapacity - m.memoryUsage : ℚ) / (1024 * 1024 * 1024) ∧
  (c.requireGPU = true → max 1 c.minGPUs ≤ m.gpuCount) ∧
  (c.minDiskGB > 0 → (c.minDiskGB : ℚ) ≤ (m.diskCapacity - m.diskUsage : ℚ) / (1024 * 1024 * 1024)) ∧
  (c.maxLatencyMs > 0 → m.networkLatency ≤ (c.maxLatencyMs : ℚ)) ∧
  (∀ kv ∈ c.nodeLabels, (m.labels.find? (fun p => p.1 = kv.1)).map Prod.snd = some kv.2)

instance (m : NodeMetrics) (c : ResourceConstraints) :
    Decidable (claimedMeetsConstraints m c) := by
  unfold claimedMeetsConstraints
  infer_instance

/-! ### C6 — building node metrics (internal/metrics/sources/uav_metrics.go) -/

/-- One entry of a node's status condition list. -/
structure NodeCondition where
  condType : String
  status : String
  message : String
deriving Repr, DecidableEq

/-- Input view of a cluster node object used by `buildNodeMetrics`:
capacities (missing quantities read as 0, as Go `resource.Quantity` does),
the allocatable ephemeral storage when present, conditions and labels. -/
structure K8sNode where
  name : String
  cpuCapacityMilli : Int
  memoryCapacityBytes : Int
  ephemeralCapacity : Option Int
  ephemeralAllocatable : Option Int
  conditions : List NodeCondition
  labels : List (String × String)
deriving Repr, DecidableEq

/-- Realtime usage feed entry for a node (metrics-server `NodeMetrics`). -/
structure NodeUsage where
  cpuUsageMilli : Int
  memoryUsageBytes : Int
deriving Repr, DecidableEq

/-- Healthy flag and failing-condition strings from the condition loop of
`buildNodeMetrics`. -/
def nodeHealthFold (conds : List NodeCondition) : Bool × List String :=
  conds.foldl
    (fun acc cond =>
      if cond.condType = "Ready" then
        if cond.status ≠ "True" then
          (false, acc.2 ++ ["NotReady: " ++ cond.message])
        else acc
      else
        if cond.status = "True" ∧
            (cond.condType = "MemoryPressure" ∨ cond.condType = "DiskPressure" ∨
             cond.condType = "PIDPressure" ∨ cond.condType = "NetworkUnavailable") then
          (false, acc.2 ++ [cond.condType ++ ": " ++ cond.message])
        else acc)
    (true, [])

/-- Embeds `NodeMetricsCollector.buildNodeMetrics`
(internal/metrics/sources/uav_metrics.go): joins node capacities with the
optional realtime usage, estimates disk usage as capacity − allocatable
clamped at 0, derives usage rates, and folds the health conditions. -/
def buildNodeMetrics (node : K8sNode) (metric : Option NodeUsage) : NodeMetrics :=
  let cpuCapacity : Int := node.cpuCapacityMilli
  let memoryCapacity : Int := node.memoryCapacityBytes
  let diskCapacity : Int := match node.ephemeralCapacity with
    | some v => v
    | none => 0
  let cpuUsage : Int := match metric with
    | some u => u.cpuUsageMilli
    | none => 0
  let memoryUsage : Int := match metric with
    | some u => u.memoryUsageBytes
    | none => 0
  let diskUsage : Int := match node.ephemeralAllocatable with
    | some alloc => if diskCapacity - alloc < 0 then 0 else diskCapacity - alloc
    | none => 0
  let cpuUsageRate : ℚ := if cpuCapacity > 0 then (cpuUsage : ℚ) / (cpuCapacity : ℚ) * 100 else 0
  let memoryUsageRate : ℚ := if memoryCapacity > 0 then (memoryUsage : ℚ) / (memoryCapacity : ℚ) * 100 else 0
  let diskUsageRate : ℚ := if diskCapacity > 0 then (diskUsage : ℚ) / (diskCapacity : ℚ) * 100 else 0
  let health := nodeHealthFold node.conditions
  { nodeName := node.name
    cpuCapacity := cpuCapacity
    cpuUsage := cpuUsage
    cpuUsageRate := cpuUsageRate
    memoryCapacity := memoryCapacity
    memoryUsage := memoryUsage
    memoryUsageRate := memoryUsageRate
    diskCapacity := diskCapacity
    diskUsage := diskUsage
    diskUsageRate := diskUsageRate
    networkLatency := 0
    gpuCount := 0
    healthy := health.1
    conditions := health.2
    labels := node.labels }

/-! ### C2 / C7 — scheduling reconciler (internal/scheduler/controller.go) -/

/-- Workload reference of a scheduling request spec (`spec.workload`).
The Go field `Namespace` is called `nspace` because `namespace` is a Lean
keyword. -/
structure WorkloadRef where
  name : String
  nspace : String
  type : String
deriving Repr, DecidableEq

/-- Parsed scheduling request spec (`models.SchedulingRequestSpec` as read
by `processRequest`): workload reference, minimum battery percent
(default 0) and preferred node list. -/
structure SchedulingRequestSpec where
  workload : WorkloadRef
  minBatteryPercent : ℚ
  preferredNodes : List String
deriving Repr, DecidableEq

/-- Fields that `buildCandidates` reads from one uav custom resource:
`spec.node_name`, `spec.uav_id`, `spec.battery.remaining_percent`
(each defaulting to the zero value when absent or of the wrong type),
`status.collection_status` and `status.last_update`. -/
structure UAVResource where
  nodeName : String
  uavID : String
  battery : ℚ
  collectionStatus : String
  lastUpdate : String
deriving Repr, DecidableEq

/-- A scheduling candidate (`models.SchedulingCandidate`); `lastUpdate`
keeps the raw heartbeat string whose parsed form the Go record stores. -/
structure SchedulingCandidate where
  nodeName : String
  uavID : String
  battery : ℚ
  lastUpdate : String
  score : ℚ
deriving Repr, DecidableEq

/-- Status written back to a scheduling request
(`models.SchedulingRequestStatus`); `lastUpdated` is set by `updateStatus`
to the wall clock and is not modelled. -/
structure SchedulingRequestStatus where
  phase : String
  assignedNode : String
  assignedUAV : String
  score : ℚ
  message : String
deriving Repr, DecidableEq

/-- A stored scheduling request as `processRequest` sees it: the result of
the `status.phase` lookup (`none` when the field is missing) and the spec
map (`none` when missing, which makes `processRequest` fail without a
write). -/
structure SchedulingRequest where
  phase : Option String
  spec : Option SchedulingRequestSpec
deriving Repr, DecidableEq

/-- Rounds a rational to the nearest integer, ties to even — the rounding
Go's `%.1f` formatting applies to the scaled value. -/
def roundHalfEven (q : ℚ) : Int :=
  let fl := q.floor
  let frac := q - (fl : ℚ)
  if frac < 1/2 then fl
  else if 1/2 < frac then fl + 1
  else if fl % 2 = 0 then fl else fl + 1

/-- Embeds Go `fmt.Sprintf("%.1f", x)` for the exact rational model of `x`:
one decimal digit, round half to even. -/
def fmtFixed1 (q : ℚ) : String :=
  let n := roundHalfEven (q * 10)
  let m := n.natAbs
  (if n < 0 then "-" else "") ++ toString (m / 10) ++ "." ++ toString (m % 10)

/-- Embeds the per-uav body of `Controller.buildCandidates`
(internal/scheduler/controller.go): the candidate built from a uav
resource that passes all filters, with the battery score plus a 10-point
case-insensitive preferred-node bonus. -/
def candidateOf (spec : SchedulingRequestSpec) (u : UAVResource) : SchedulingCandidate :=
  { nodeName := u.nodeName
    uavID := u.uavID
    battery := u.battery
    lastUpdate := u.lastUpdate
    score := u.battery +
      (if (spec.preferredNodes.map String.toLower).contains u.nodeName.toLower then 10 else 0) }

/-- Embeds `Controller.buildCandidates`: skip uav resources with an empty
node name, a battery below a positive `minBatteryPercent`, or a non-empty
lowercased collection status other than `active`. -/
def buildCandidates (spec : SchedulingRequestSpec) (uavList : List UAVResource) :
    List SchedulingCandidate :=
  uavList.filterMap fun item =>
    if item.nodeName = "" then none
    else if spec.minBatteryPercent > 0 ∧ item.battery < spec.minBatteryPercent then none
    else if item.collectionStatus.toLower ≠ "" ∧ item.collectionStatus.toLower ≠ "active" then none
    else some (candidateOf spec item)

/-- Stable insertion of a candidate into a list sorted by descending score:
the new element goes before the first strictly smaller score and after
equal scores of earlier elements. -/
def insertDesc (c : SchedulingCandidate) : List SchedulingCandidate → List SchedulingCandidate
  | [] => [c]
  | d :: ds => if d.score ≤ c.score then c :: d :: ds else d :: insertDesc c ds

/-- Stable sort by descending score.  `sort.SliceStable` with the strict
`>` comparison has a unique output — descending scores with ties in input
order — and this insertion sort computes exactly that permutation. -/
def sortDesc : List SchedulingCandidate → List SchedulingCandidate
  | [] => []
  | c :: cs => insertDesc c (sortDesc cs)

/-- The first element of maximal score in list order: the element
`sort.SliceStable` descending places first.  Proof-side characterization of
`(sortDesc l).head?`. -/
def firstMaxScore : List SchedulingCandidate → Option SchedulingCandidate
  | [] => none
  | c :: cs =>
    match firstMaxScore cs with
    | none => some c
    | some d => if c.score < d.score then some d else some c

/-- Embeds the tail of `Controller.updateStatus`: an empty phase is written
as `Pending` (never reached from `processRequest`, which always writes a
non-empty phase). -/
def writtenStatus (st : SchedulingRequestStatus) : SchedulingRequestStatus :=
  if st.phase = "" then { st with phase := "Pending" } else st

/-- Embeds `Controller.processRequest` (internal/scheduler/controller.go):
returns the status written back, or `none` when the request is skipped
(already non-pending) or its spec is missing (error return, no write). -/
def processRequest (req : SchedulingRequest) (uavList : List UAVResource) :
    Option SchedulingRequestStatus :=
  let skip := match req.phase with
    | some p => (p != "") && (p != "Pending")
    | none => false
  if skip then none
  else
    match req.spec with
    | none => none
    | some spec =>
      if spec.workload.name = "" ∨ spec.workload.nspace = "" then
        some (writtenStatus
          { phase := "Failed", assignedNode := "", assignedUAV := "", score := 0
            message := "workload name/namespace 不能为空" })
      else
        match sortDesc (buildCandidates spec uavList) with
        | [] =>
          some (writtenStatus
            { phase := "Failed", assignedNode := "", assignedUAV := "", score := 0
              message := "无满足要求的 UAV 节点" })
        | chosen :: _ =>
          some (writtenStatus
            { phase := "Assigned"
              assignedNode := chosen.nodeName
              assignedUAV := chosen.uavID
              score := chosen.score
              message := "选中节点 " ++ chosen.nodeName ++ " (电量 " ++
                fmtFixed1 chosen.battery ++ "%)" })

/-- One request of a reconciliation pass: the stored object after
`processRequest`, unchanged when no status is written, otherwise with the
written phase. -/
def reconcileStep (req : SchedulingRequest) (uavList : List UAVResource) : SchedulingRequest :=
  match processRequest req uavList with
  | none => req
  | some st => { req with phase := some st.phase }

/-! ### C5 — network probe pair selection (sources `selectPodPairs`) -/

/-- The fields of a running pod that `selectPodPairs` reads. -/
structure ProbePod where
  nspace : String
  name : String
  ip : String
  nodeName : String
deriving Repr, DecidableEq

/-- The inner `j` loop of the first (cross-node) phase of
`selectPodPairs`: append the cross-node pairs `(src, t)` while fewer than
`maxPairs` pairs are collected. -/
def crossInner (maxPairs : Nat) (src : ProbePod) :
    List ProbePod → List (ProbePod × ProbePod) → List (ProbePod × ProbePod)
  | [], acc => acc
  | t :: ts, acc =>
    if acc.length < maxPairs then
      if src.nodeName ≠ t.nodeName then crossInner maxPairs src ts (acc ++ [(src, t)])
      else crossInner maxPairs src ts acc
    else acc

/-- The outer `i` loop of the first (cross-node) phase. -/
def crossOuter (maxPairs : Nat) :
    List ProbePod → List (ProbePod × ProbePod) → List (ProbePod × ProbePod)
  | [], acc => acc
  | p :: ps, acc =>
    if acc.length < maxPairs then crossOuter maxPairs ps (crossInner maxPairs p ps acc)
    else acc

/-- The inner loop of the second (fallback) phase: append every pair. -/
def fillInner (maxPairs : Nat) (src : ProbePod) :
    List ProbePod → List (ProbePod × ProbePod) → List (ProbePod × ProbePod)
  | [], acc => acc
  | t :: ts, acc =>
    if acc.length < maxPairs then fillInner maxPairs src ts (acc ++ [(src, t)])
    else acc

/-- The outer loop of the second (fallback) phase. -/
def fillOuter (maxPairs : Nat) :
    List ProbePod → List (ProbePod × ProbePod) → List (ProbePod × ProbePod)
  | [], acc => acc
  | p :: ps, acc =>
    if acc.length < maxPairs then fillOuter maxPairs ps (fillInner maxPairs p ps acc)
    else acc

/-- Embeds `NetworkMetricsCollector.selectPodPairs` (sources package) on
the already-filtered list of running pods with IPs: collect cross-node
pairs first; only when that yields no pair at all, rerun the double loop
without the cross-node condition.  `maxPairs` (Go `maxPodPairs`, default
10) is a count, modelled as `Nat`. -/
def selectPodPairs (enableAutoTest : Bool) (pods : List ProbePod) (maxPairs : Nat) :
    List (ProbePod × ProbePod) :=
  if enableAutoTest = false then []
  else if pods.length < 2 then []
  else
    let pairs := crossOuter maxPairs pods []
    if pairs.length = 0 then fillOuter maxPairs pods [] else pairs

/-! ### C8 — uav report ingestion (`Manager.UpdateUAVReport`) -/

/-- Agent-pushed uav report (`models.UAVReport` as used by
`UpdateUAVReport` and the HTTP handler).  The telemetry state is an
abstract payload `σ`: the code only copies it. -/
structure UAVReport (σ : Type) where
  nodeName : String
  nodeIP : String
  uavID : String
  source : String
  status : String
  timestamp : Int
  heartbeatIntervalSeconds : Int
  metadata : List (String × String)
  state : Option σ
deriving Repr, DecidableEq

/-- The entry map `UpdateUAVReport` stores under the node name; optional
keys are present exactly when the code adds them. -/
structure UAVEntry (σ : Type) where
  nodeName : String
  uavID : String
  status : String
  source : String
  timestamp : Int
  lastHeartbeat : Int
  nodeIP : Option String
  heartbeatIntervalSeconds : Option Int
  metadata : Option (List (String × String))
  state : Option σ
deriving Repr, DecidableEq

/-- The part of the aggregator's state that `UpdateUAVReport` can touch:
the uav snapshot map and the heartbeat map. -/
structure ManagerUAVState (σ : Type) where
  uavSnapshot : List (String × UAVEntry σ)
  uavLastHeartbeat : List (String × Int)
deriving Repr, DecidableEq

/-- Go map assignment `m[k] = v`: replace the binding or add it. -/
def upsertAssoc {α : Type} (m : List (String × α)) (key : String) (v : α) :
    List (String × α) :=
  match m with
  | [] => [(key, v)]
  | kv :: rest => if kv.1 = key then (key, v) :: rest else kv :: upsertAssoc rest key v

/-- Go map read returning an `Option`. -/
def lookupAssoc {α : Type} : List (String × α) → String → Option α
  | [], _ => none
  | kv :: rest, key => if kv.1 = key then some kv.2 else lookupAssoc rest key

/-- Embeds `Manager.UpdateUAVReport` (metrics manager): no-op for a nil
report or an empty node name; otherwise default the timestamp to `now`,
the status to `active` and the source to `agent` when missing, build the
entry with its optional keys, and store entry and heartbeat under the node
name. -/
def UpdateUAVReport {σ : Type} (report : Option (UAVReport σ)) (now : Int)
    (m : ManagerUAVState σ) : ManagerUAVState σ :=
  match report with
  | none => m
  | some r =>
    if r.nodeName = "" then m
    else
      let reportTime := if r.timestamp = 0 then now else r.timestamp
      let entry : UAVEntry σ :=
        { nodeName := r.nodeName
          uavID := r.uavID
          status := if r.status = "" then "active" else r.status
          source := if r.source = "" then "agent" else r.source
          timestamp := reportTime
          lastHeartbeat := reportTime
          nodeIP := if r.nodeIP ≠ "" then some r.nodeIP else none
          heartbeatIntervalSeconds :=
            if r.heartbeatIntervalSeconds > 0 then some r.heartbeatIntervalSeconds else none
          metadata := if r.metadata.length > 0 then some r.metadata else none
          state := r.state }
      { uavSnapshot := upsertAssoc m.uavSnapshot r.nodeName entry
        uavLastHeartbeat := upsertAssoc m.uavLastHeartbeat r.nodeName reportTime }

/-! ### C9 — aggregator start (`Manager.Start`) -/

/-- How a call to `Manager.Start` leaves the synchronous part of its
control flow. -/
inductive StartOutcome where
  | alreadyRunningErr
  | abortNonPositiveTicker
  | loopEntered
deriving Repr, DecidableEq

/-- Embeds the synchronous prefix of `Manager.Start` (metrics manager):
an error return when already running; otherwise one collection, then
`time.NewTicker(m.interval)` — which, per Go's runtime semantics, aborts
the goroutine when the duration is not positive — and then the tick loop. -/
def managerStart (running : Bool) (intervalNs : Int) : StartOutcome :=
  if running then .alreadyRunningErr
  else if intervalNs ≤ 0 then .abortNonPositiveTicker
  else .loopEntered

/-! ### Statement-level predicates and concrete inputs -/

/-- The per-uav membership condition, final-status writes and best-candidate
choice of one `processRequest` run on a pending request with a non-empty
workload reference, as claim C2 describes them (messages and the
case-insensitive collection-status comparison amended to the code). -/
def schedulerPassSpec (req : SchedulingRequest) (spec : SchedulingRequestSpec)
    (uavs : List UAVResource) : Prop :=
  (∀ c, c ∈ buildCandidates spec uavs ↔
    ∃ u ∈ uavs, u.nodeName ≠ "" ∧
      ¬(spec.minBatteryPercent > 0 ∧ u.battery < spec.minBatteryPercent) ∧
      ¬(u.collectionStatus.toLower ≠ "" ∧ u.collectionStatus.toLower ≠ "active") ∧
      c = { nodeName := u.nodeName, uavID := u.uavID, battery := u.battery
            lastUpdate := u.lastUpdate
            score := u.battery +
              (if (spec.preferredNodes.map String.toLower).contains u.nodeName.toLower
               then 10 else 0) }) ∧
  (buildCandidates spec uavs = [] →
    processRequest req uavs = some
      { phase := "Failed", assignedNode := "", assignedUAV := "", score := 0
        message := "无满足要求的 UAV 节点" }) ∧
  (buildCandidates spec uavs ≠ [] →
    ∃ chosen l1 l2,
      buildCandidates spec uavs = l1 ++ chosen :: l2 ∧
      (∀ c ∈ l1, c.score < chosen.score) ∧
      (∀ c ∈ buildCandidates spec uavs, c.score ≤ chosen.score) ∧
      processRequest req uavs = some
        { phase := "Assigned", assignedNode := chosen.nodeName
          assignedUAV := chosen.uavID, score := chosen.score
          message := "选中节点 " ++ chosen.nodeName ++ " (电量 " ++
            fmtFixed1 chosen.battery ++ "%)" })

/-- Claim C7's frame property of a reconciliation pass on one request. -/
def reconcileFrameSpec (req : SchedulingRequest) (uavs : List UAVResource) : Prop :=
  (∀ p, req.phase = some p → p ≠ "" → p ≠ "Pending" →
    processRequest req uavs = none ∧ reconcileStep req uavs = req) ∧
  (processRequest req uavs ≠ none →
    req.phase = none ∨ req.phase = some "" ∨ req.phase = some "Pending")

/-- Claim C4's description of the probe statistics: mean of the successful
RTTs, success rate over all tests, and the latency grade thresholds. -/
def rttStatsSpec (r : NetworkTestResult) : Prop :=
  (0 < (successfulResults r.rttResults).length →
    (calculateStats r).averageRTT =
      ((successfulResults r.rttResults).map (fun x => x.rtt)).sum /
        ((successfulResults r.rttResults).length : ℚ)) ∧
  (r.rttResults ≠ [] →
    (calculateStats r).successRate =
      ((successfulResults r.rttResults).length : ℚ) / (r.rttResults.length : ℚ) * 100) ∧
  ((successfulResults r.rttResults).length = 0 →
    (calculateStats r).averageRTT = 0 ∧ (calculateStats r).successRate = 0 ∧
      (calculateStats r).latency = "unknown") ∧
  ((calculateStats r).averageRTT = 0 → (calculateStats r).latency = "unknown") ∧
  ((calculateStats r).averageRTT ≠ 0 → (calculateStats r).averageRTT < 1 →
    (calculateStats r).latency = "excellent") ∧
  (1 ≤ (calculateStats r).averageRTT → (calculateStats r).averageRTT < 5 →
    (calculateStats r).latency = "good") ∧
  (5 ≤ (calculateStats r).averageRTT → (calculateStats r).averageRTT < 50 →
    (calculateStats r).latency = "fair") ∧
  (50 ≤ (calculateStats r).averageRTT → (calculateStats r).averageRTT < 100 →
    (calculateStats r).latency = "poor") ∧
  (100 ≤ (calculateStats r).averageRTT → (calculateStats r).latency = "very_poor")

/-- Claim C3's constraint characterization amended to the code: the
`minGPUs` bound also applies without `requireGPU`, and label matching reads
a missing node label as the empty string. -/
def meetsConstraintsAmended (m : NodeMetrics) (c : ResourceConstraints) : Prop :=
  m.healthy = true ∧
  (c.minCPUCores : ℚ) ≤ (m.cpuCapacity - m.cpuUsage : ℚ) / 1000 ∧
  (c.minMemoryGB : ℚ) ≤ (m.memoryCapacity - m.memoryUsage : ℚ) / (1024 * 1024 * 1024) ∧
  (c.requireGPU = true → max 1 c.minGPUs ≤ m.gpuCount) ∧
  c.minGPUs ≤ m.gpuCount ∧
  (c.minDiskGB > 0 → (c.minDiskGB : ℚ) ≤ (m.diskCapacity - m.diskUsage : ℚ) / (1024 * 1024 * 1024)) ∧
  (c.maxLatencyMs > 0 → m.networkLatency ≤ (c.maxLatencyMs : ℚ)) ∧
  (∀ kv ∈ c.nodeLabels, lookupLabel m.labels kv.1 = kv.2)

/-- Claim C6's rate bounds amended to the code: within `[0, 100]` only when
the recorded usage lies between 0 and the capacity (the code does not
clamp), and zero when the capacity is not positive. -/
def nodeRateBoundsSpec (node : K8sNode) (metric : Option NodeUsage) : Prop :=
  (0 < (buildNodeMetrics node metric).cpuCapacity →
    0 ≤ (buildNodeMetrics node metric).cpuUsage →
    (buildNodeMetrics node metric).cpuUsage ≤ (buildNodeMetrics node metric).cpuCapacity →
    0 ≤ (buildNodeMetrics node metric).cpuUsageRate ∧
      (buildNodeMetrics node metric).cpuUsageRate ≤ 100) ∧
  (¬ 0 < (buildNodeMetrics node metric).cpuCapacity →
    (buildNodeMetrics node metric).cpuUsageRate = 0) ∧
  (0 < (buildNodeMetrics node metric).memoryCapacity →
    0 ≤ (buildNodeMetrics node metric).memoryUsage →
    (buildNodeMetrics node metric).memoryUsage ≤ (buildNodeMetrics node metric).memoryCapacity →
    0 ≤ (buildNodeMetrics node metric).memoryUsageRate ∧
      (buildNodeMetrics node metric).memoryUsageRate ≤ 100) ∧
  (¬ 0 < (buildNodeMetrics node metric).memoryCapacity →
    (buildNodeMetrics node metric).memoryUsageRate = 0) ∧
  (0 < (buildNodeMetrics node metric).diskCapacity →
    0 ≤ (buildNodeMetrics node metric).diskUsage →
    (buildNodeMetrics node metric).diskUsage ≤ (buildNodeMetrics node metric).diskCapacity →
    0 ≤ (buildNodeMetrics node metric).diskUsageRate ∧
      (buildNodeMetrics node metric).diskUsageRate ≤ 100) ∧
  (¬ 0 < (buildNodeMetrics node metric).diskCapacity →
    (buildNodeMetrics node metric).diskUsageRate = 0)

/-- Claim C5's pair-selection property amended to the code: at most
`maxPairs` pairs, the first phase collects only cross-node pairs, and an
intra-node pair can appear in the result only when the cross-node phase
collected nothing at all. -/
def pairSelectionSpec (b : Bool) (pods : List ProbePod) (maxPairs : Nat) : Prop :=
  (selectPodPairs b pods maxPairs).length ≤ maxPairs ∧
  (∀ pr ∈ crossOuter maxPairs pods [], pr.1.nodeName ≠ pr.2.nodeName) ∧
  ((∃ pr ∈ selectPodPairs b pods maxPairs, pr.1.nodeName = pr.2.nodeName) →
    crossOuter maxPairs pods [] = [])

/-- Claim C8 amended to the code: `UpdateUAVReport` is a no-op for a nil
report or empty node name; otherwise it stores, under the node name, the
entry with the timestamp/status/source defaults (the uav id is stored as
given — the HTTP handler, not this method, derives `uav-<node>`), updates
the heartbeat map to the defaulted timestamp, and leaves every other node's
entries unchanged. -/
def updateUAVReportSpec {σ : Type} (r : UAVReport σ) (now : Int)
    (m : ManagerUAVState σ) : Prop :=
  (UpdateUAVReport (σ := σ) none now m = m) ∧
  (r.nodeName = "" → UpdateUAVReport (some r) now m = m) ∧
  (r.nodeName ≠ "" →
    lookupAssoc (UpdateUAVReport (some r) now m).uavSnapshot r.nodeName = some
      { nodeName := r.nodeName
        uavID := r.uavID
        status := if r.status = "" then "active" else r.status
        source := if r.source = "" then "agent" else r.source
        timestamp := if r.timestamp = 0 then now else r.timestamp
        lastHeartbeat := if r.timestamp = 0 then now else r.timestamp
        nodeIP := if r.nodeIP ≠ "" then some r.nodeIP else none
        heartbeatIntervalSeconds :=
          if r.heartbeatIntervalSeconds > 0 then some r.heartbeatIntervalSeconds else none
        metadata := if r.metadata.length > 0 then some r.metadata else none
        state := r.state } ∧
    lookupAssoc (UpdateUAVReport (some r) now m).uavLastHeartbeat r.nodeName =
      some (if r.timestamp = 0 then now else r.timestamp) ∧
    (∀ k, k ≠ r.nodeName →
      lookupAssoc (UpdateUAVReport (some r) now m).uavSnapshot k =
        lookupAssoc m.uavSnapshot k ∧
      lookupAssoc (UpdateUAVReport (some r) now m).uavLastHeartbeat k =
        lookupAssoc m.uavLastHeartbeat k))

/-- An analysis with exactly one issue (a network-policy hit), as produced
just before `determineFinalStatus` runs. -/
def exAnalysis : CommunicationAnalysis :=
  { podA := "default/nginx", podB := "default/busybox", status := "unknown"
    issues := ["Network policy default/np may affect communication"]
    solutions := ["Review network policy default/np rules"], confidence := 0 }

/-- Scenario-4 workload reference. -/
def exWorkload : WorkloadRef := { name := "demo", nspace := "default", type := "pod" }

/-- Scenario-4 request spec: minimum battery 50, preferred node `node-b`. -/
def exSpec : SchedulingRequestSpec :=
  { workload := exWorkload, minBatteryPercent := 50, preferredNodes := ["node-b"] }

/-- A pending request carrying `exSpec`. -/
def exReq : SchedulingRequest := { phase := some "Pending", spec := some exSpec }

/-- An already-assigned request carrying `exSpec`. -/
def exAssignedReq : SchedulingRequest := { phase := some "Assigned", spec := some exSpec }

/-- Scenario-4 uav resources: `node-a` at 80 %, `node-b` at 40 %. -/
def exUAVs : List UAVResource :=
  [ { nodeName := "node-a", uavID := "uav-a", battery := 80
      collectionStatus := "active", lastUpdate := "2024-01-01T00:00:00Z" }
  , { nodeName := "node-b", uavID := "uav-b", battery := 40
      collectionStatus := "active", lastUpdate := "2024-01-01T00:00:00Z" } ]

/-- A healthy GPU-less node with ample CPU and memory. -/
def exNode : NodeMetrics :=
  { nodeName := "node-a", cpuCapacity := 4000, cpuUsage := 0, cpuUsageRate := 0
    memoryCapacity := 2147483648, memoryUsage := 0, memoryUsageRate := 0
    diskCapacity := 0, diskUsage := 0, diskUsageRate := 0
    networkLatency := 0, gpuCount := 0, healthy := true, conditions := [], labels := [] }

/-- Constraints with `requireGPU = false` but `minGPUs = 2`. -/
def exConstraints : ResourceConstraints :=
  { minCPUCores := 1, minMemoryGB := 1, minGPUs := 2, minDiskGB := 0
    maxLatencyMs := 0, requireGPU := false, nodeLabels := [] }

/-- A healthy node with one GPU, disk, latency and a zone label. -/
def exNode2 : NodeMetrics :=
  { nodeName := "node-b", cpuCapacity := 4000, cpuUsage := 1000, cpuUsageRate := 25
    memoryCapacity := 4294967296, memoryUsage := 1073741824, memoryUsageRate := 25
    diskCapacity := 107374182400, diskUsage := 10737418240, diskUsageRate := 10
    networkLatency := 5, gpuCount := 1, healthy := true, conditions := []
    labels := [("zone", "a")] }

/-- Constraints that `exNode2` satisfies, exercising every check. -/
def exConstraints2 : ResourceConstraints :=
  { minCPUCores := 1, minMemoryGB := 1, minGPUs := 0, minDiskGB := 10
    maxLatencyMs := 100, requireGPU := true, nodeLabels := [("zone", "a")] }

/-- Probe pods: two on node `n1`, one on node `n2`. -/
def exPodA : ProbePod := { nspace := "default", name := "a", ip := "10.0.0.1", nodeName := "n1" }

/-- Second pod on node `n1`. -/
def exPodB : ProbePod := { nspace := "default", name := "b", ip := "10.0.0.2", nodeName := "n1" }

/-- Pod on node `n2`. -/
def exPodC : ProbePod := { nspace := "default", name := "c", ip := "10.0.0.3", nodeName := "n2" }

/-- The pod list of the C5 inputs. -/
def exPods : List ProbePod := [exPodA, exPodB, exPodC]

/-- A node whose realtime CPU usage exceeds its capacity. -/
def exOverNode : K8sNode :=
  { name := "n1", cpuCapacityMilli := 1000, memoryCapacityBytes := 1024
    ephemeralCapacity := some 1000, ephemeralAllocatable := some 800
    conditions := [{ condType := "Ready", status := "True", message := "" }], labels := [] }

/-- The realtime usage feed entry for `exOverNode`. -/
def exOverUsage : NodeUsage := { cpuUsageMilli := 1500, memoryUsageBytes := 512 }

/-- A well-behaved node for the C6 witness. -/
def exNode3 : K8sNode :=
  { name := "n2", cpuCapacityMilli := 2000, memoryCapacityBytes := 1073741824
    ephemeralCapacity := some 10737418240, ephemeralAllocatable := some 9663676416
    conditions := [{ condType := "Ready", status := "True", message := "" }], labels := [] }

/-- The realtime usage feed entry for `exNode3`. -/
def exUsage3 : NodeUsage := { cpuUsageMilli := 500, memoryUsageBytes := 536870912 }

/-- A report with empty uav id and status, source `pull`, zero timestamp. -/
def exReport : UAVReport Unit :=
  { nodeName := "n1", nodeIP := "", uavID := "", source := "pull", status := ""
    timestamp := 0, heartbeatIntervalSeconds := 0, metadata := [], state := none }

/-- A fully populated report for the C8 witness. -/
def exReport2 : UAVReport Unit :=
  { nodeName := "n2", nodeIP := "10.0.0.2", uavID := "uav-2", source := "agent"
    status := "active", timestamp := 100, heartbeatIntervalSeconds := 15
    metadata := [("k", "v")], state := some () }

/-- An empty aggregator uav state. -/
def exEmptyManager : ManagerUAVState Unit := { uavSnapshot := [], uavLastHeartbeat := [] }

/-- The C4 witness input: one successful ping at 3 ms and one failure. -/
def exTestResult : NetworkTestResult :=
  { podA := "default/a", podB := "default/b"
    rttResults :=
      [ { success := true, rtt := 3, packetLoss := 0, errorMessage := ""
          timestamp := 0, method := "ping" }
      , { success := false, rtt := 0, packetLoss := 100, errorMessage := "timeout"
          timestamp := 0, method := "ping_reverse" } ]
    averageRTT := 0, successRate := 0, testCount := 2, latency := "" }

/-! ### Helper lemmas -/

/-- Splitting a string that does not contain the separator yields the whole
string as the only part. -/
theorem goSplit_of_not_mem (sep : Char) : ∀ (s : List Char), sep ∉ s → goSplit sep s = [s]
  | [], _ => rfl
  | c :: rest, h => by
    have hc : ¬ c = sep := fun hcs => h (hcs ▸ List.mem_cons_self c rest)
    have hrest : sep ∉ rest := fun hm => h (List.mem_cons_of_mem c hm)
    simp only [goSplit, if_neg hc, goSplit_of_not_mem sep rest hrest]

/-- `insertDesc` never produces the empty list. -/
theorem insertDesc_ne_nil (c : SchedulingCandidate) (l : List SchedulingCandidate) :
    insertDesc c l ≠ [] := by
  cases l with
  | nil => simp [insertDesc]
  | cons d ds =>
    simp only [insertDesc]
    split <;> simp

/-- `sortDesc` maps non-empty lists to non-empty lists. -/
theorem sortDesc_ne_nil {l : List SchedulingCandidate} (h : l ≠ []) : sortDesc l ≠ [] := by
  cases l with
  | nil => exact absurd rfl h
  | cons c cs => exact insertDesc_ne_nil c (sortDesc cs)

/-- `firstMaxScore` of a non-empty list is never `none`. -/
theorem firstMaxScore_ne_none (c : SchedulingCandidate) (cs : List SchedulingCandidate) :
    firstMaxScore (c :: cs) ≠ none := by
  cases hcs : firstMaxScore cs with
  | none => simp [firstMaxScore, hcs]
  | some d =>
    by_cases h : c.score < d.score <;> simp [firstMaxScore, hcs, h]

/-- The head of the stable descending sort is the first element of maximal
score in input order. -/
theorem head?_sortDesc : ∀ (l : List SchedulingCandidate),
    (sortDesc l).head? = firstMaxScore l
  | [] => rfl
  | c :: cs => by
    have ih := head?_sortDesc cs
    cases hcs : firstMaxScore cs with
    | none =>
      rw [hcs] at ih
      have hnil : sortDesc cs = [] := List.head?_eq_none_iff.mp ih
      simp [sortDesc, hnil, insertDesc, firstMaxScore, hcs]
    | some d =>
      rw [hcs] at ih
      obtain ⟨tail, htail⟩ : ∃ t, sortDesc cs = d :: t := by
        cases hs : sortDesc cs with
        | nil => rw [hs] at ih; cases ih
        | cons x t => rw [hs] at ih; cases ih; exact ⟨t, rfl⟩
      by_cases hcd : c.score < d.score
      · simp [sortDesc, htail, insertDesc, if_neg (not_le.mpr hcd), firstMaxScore, hcs, hcd]
      · simp [sortDesc, htail, insertDesc, if_pos (not_lt.mp hcd), firstMaxScore, hcs, hcd]

/-- The element `firstMaxScore` returns splits the list into a strictly
smaller prefix and a suffix, and bounds every score. -/
theorem firstMaxScore_spec : ∀ (l : List SchedulingCandidate) (m : SchedulingCandidate),
    firstMaxScore l = some m →
    ∃ l1 l2, l = l1 ++ m :: l2 ∧ (∀ c ∈ l1, c.score < m.score) ∧ ∀ c ∈ l, c.score ≤ m.score
  | [], m, h => by simp [firstMaxScore] at h
  | c :: cs, m, h => by
    cases hcs : firstMaxScore cs with
    | none =>
      simp only [firstMaxScore, hcs, Option.some.injEq] at h
      cases cs with
      | nil => exact ⟨[], [], by simp [h], by simp, by simp [← h]⟩
      | cons d ds => exact absurd hcs (firstMaxScore_ne_none d ds)
    | some d =>
      simp only [firstMaxScore, hcs] at h
      obtain ⟨l1, l2, hdec, hlt, hle⟩ := firstMaxScore_spec cs d hcs
      by_cases hcd : c.score < d.score
      · rw [if_pos hcd, Option.some.injEq] at h
        subst h
        refine ⟨c :: l1, l2, by rw [hdec]; rfl, ?_, ?_⟩
        · intro x hx
          rcases List.mem_cons.mp hx with rfl | hx1
          · exact hcd
          · exact hlt x hx1
        · intro x hx
          rcases List.mem_cons.mp hx with rfl | hx1
          · exact le_of_lt hcd
          · exact hle x hx1
      · rw [if_neg hcd, Option.some.injEq] at h
        subst h
        refine ⟨[], cs, rfl, by simp, ?_⟩
        intro x hx
        rcases List.mem_cons.mp hx with rfl | hx1
        · exact le_refl _
        · exact le_trans (hle x hx1) (not_lt.mp hcd)

/-- Candidate-list membership for `buildCandidates`. -/
theorem mem_buildCandidates (spec : SchedulingRequestSpec) (uavs : List UAVResource)
    (c : SchedulingCandidate) :
    c ∈ buildCandidates spec uavs ↔
      ∃ u ∈ uavs, u.nodeName ≠ "" ∧
        ¬(spec.minBatteryPercent > 0 ∧ u.battery < spec.minBatteryPercent) ∧
        ¬(u.collectionStatus.toLower ≠ "" ∧ u.collectionStatus.toLower ≠ "active") ∧
        c = candidateOf spec u := by
  simp only [buildCandidates, List.mem_filterMap]
  constructor
  · rintro ⟨u, hu, hf⟩
    refine ⟨u, hu, ?_⟩
    by_cases h1 : u.nodeName = ""
    · rw [if_pos h1] at hf; cases hf
    rw [if_neg h1] at hf
    by_cases h2 : spec.minBatteryPercent > 0 ∧ u.battery < spec.minBatteryPercent
    · rw [if_pos h2] at hf; cases hf
    rw [if_neg h2] at hf
    by_cases h3 : u.collectionStatus.toLower ≠ "" ∧ u.collectionStatus.toLower ≠ "active"
    · rw [if_pos h3] at hf; cases hf
    rw [if_neg h3] at hf
    exact ⟨h1, h2, h3, (Option.some.inj hf).symm⟩
  · rintro ⟨u, hu, h1, h2, h3, rfl⟩
    exact ⟨u, hu, by rw [if_neg h1, if_neg h2, if_neg h3]⟩

/-- Reading back the key just written. -/
theorem lookupAssoc_upsert_self {α : Type} : ∀ (m : List (String × α)) (k : String) (v : α),
    lookupAssoc (upsertAssoc m k v) k = some v
  | [], k, v => by simp [upsertAssoc, lookupAssoc]
  | kv :: rest, k, v => by
    by_cases h : kv.1 = k
    · simp [upsertAssoc, h, lookupAssoc]
    · simp only [upsertAssoc, if_neg h, lookupAssoc]
      exact lookupAssoc_upsert_self rest k v

/-- Writing one key leaves the others unchanged. -/
theorem lookupAssoc_upsert_ne {α : Type} :
    ∀ (m : List (String × α)) (k k' : String) (v : α), k' ≠ k →
    lookupAssoc (upsertAssoc m k v) k' = lookupAssoc m k'
  | [], k, k', v, h => by
    simp only [upsertAssoc, lookupAssoc]
    rw [if_neg (fun e => h e.symm)]
  | kv :: rest, k, k', v, h => by
    by_cases hk : kv.1 = k
    · simp only [upsertAssoc, if_pos hk, lookupAssoc]
      rw [if_neg (fun e => h e.symm), hk, if_neg (fun e => h e.symm)]
    · simp only [upsertAssoc, if_neg hk, lookupAssoc]
      by_cases hk' : kv.1 = k'
      · rw [if_pos hk', if_pos hk']
      · rw [if_neg hk', if_neg hk']
        exact lookupAssoc_upsert_ne rest k k' v h

/-- The cross-node inner loop keeps the accumulator within the cap. -/
theorem crossInner_length (maxPairs : Nat) (src : ProbePod) :
    ∀ (ts : List ProbePod) (acc : List (ProbePod × ProbePod)),
    acc.length ≤ maxPairs → (crossInner maxPairs src ts acc).length ≤ maxPairs
  | [], acc, h => h
  | t :: ts, acc, h => by
    simp only [crossInner]
    by_cases hlt : acc.length < maxPairs
    · rw [if_pos hlt]
      by_cases hnode : src.nodeName ≠ t.nodeName
      · rw [if_pos hnode]
        exact crossInner_length maxPairs src ts _ (by simpa using hlt)
      · rw [if_neg hnode]
        exact crossInner_length maxPairs src ts acc h
    · rw [if_neg hlt]
      exact h

/-- The cross-node outer loop keeps the accumulator within the cap. -/
theorem crossOuter_length (maxPairs : Nat) :
    ∀ (ps : List ProbePod) (acc : List (ProbePod × ProbePod)),
    acc.length ≤ maxPairs → (crossOuter maxPairs ps acc).length ≤ maxPairs
  | [], acc, h => h
  | p :: ps, acc, h => by
    simp only [crossOuter]
    by_cases hlt : acc.length < maxPairs
    · rw [if_pos hlt]
      exact crossOuter_length maxPairs ps _ (crossInner_length maxPairs p ps acc h)
    · rw [if_neg hlt]
      exact h

/-- The fallback inner loop keeps the accumulator within the cap. -/
theorem fillInner_length (maxPairs : Nat) (src : ProbePod) :
    ∀ (ts : List ProbePod) (acc : List (ProbePod × ProbePod)),
    acc.length ≤ maxPairs → (fillInner maxPairs src ts acc).length ≤ maxPairs
  | [], acc, h => h
  | t :: ts, acc, h => by
    simp only [fillInner]
    by_cases hlt : acc.length < maxPairs
    · rw [if_pos hlt]
      exact fillInner_length maxPairs src ts _ (by simpa using hlt)
    · rw [if_neg hlt]
      exact h

/-- The fallback outer loop keeps the accumulator within the cap. -/
theorem fillOuter_length (maxPairs : Nat) :
    ∀ (ps : List ProbePod) (acc : List (ProbePod × ProbePod)),
    acc.length ≤ maxPairs → (fillOuter maxPairs ps acc).length ≤ maxPairs
  | [], acc, h => h
  | p :: ps, acc, h => by
    simp only [fillOuter]
    by_cases hlt : acc.length < maxPairs
    · rw [if_pos hlt]
      exact fillOuter_length maxPairs ps _ (fillInner_length maxPairs p ps acc h)
    · rw [if_neg hlt]
      exact h

/-- Every pair the cross-node inner loop adds is cross-node. -/
theorem crossInner_cross (maxPairs : Nat) (src : ProbePod) :
    ∀ (ts : List ProbePod) (acc : List (ProbePod × ProbePod)),
    (∀ pr ∈ acc, pr.1.nodeName ≠ pr.2.nodeName) →
    ∀ pr ∈ crossInner maxPairs src ts acc, pr.1.nodeName ≠ pr.2.nodeName
  | [], acc, hacc => hacc
  | t :: ts, acc, hacc => by
    simp only [crossInner]
    by_cases hlt : acc.length < maxPairs
    · rw [if_pos hlt]
      by_cases hnode : src.nodeName ≠ t.nodeName
      · rw [if_pos hnode]
        refine crossInner_cross maxPairs src ts _ ?_
        intro pr hpr
        rcases List.mem_append.mp hpr with hm | hm
        · exact hacc pr hm
        · rcases List.mem_singleton.mp hm with rfl
          exact hnode
      · rw [if_neg hnode]
        exact crossInner_cross maxPairs src ts acc hacc
    · rw [if_neg hlt]
      exact hacc

/-- Every pair the cross-node outer loop collects is cross-node. -/
theorem crossOuter_cross (maxPairs : Nat) :
    ∀ (ps : List ProbePod) (acc : List (ProbePod × ProbePod)),
    (∀ pr ∈ acc, pr.1.nodeName ≠ pr.2.nodeName) →
    ∀ pr ∈ crossOuter maxPairs ps acc, pr.1.nodeName ≠ pr.2.nodeName
  | [], acc, hacc => hacc
  | p :: ps, acc, hacc => by
    simp only [crossOuter]
    by_cases hlt : acc.length < maxPairs
    · rw [if_pos hlt]
      exact crossOuter_cross maxPairs ps _ (crossInner_cross maxPairs p ps acc hacc)
    · rw [if_neg hlt]
      exact hacc

/-! ### Claim theorems -/

/-- C1 (code bug evidence): on an analysis with exactly one issue,
`determineFinalStatus` reports `disconnected` with confidence exactly 0.7,
not the claimed `0.7 − 0.1 × |issues| = 0.6`. -/
theorem determineFinalStatus_flat_confidence :
    (determineFinalStatus exAnalysis).status = "disconnected" ∧
    (determineFinalStatus exAnalysis).confidence = 7/10 ∧
    exAnalysis.issues.length = 1 ∧
    (determineFinalStatus exAnalysis).confidence ≠ 7/10 - 1/10 * exAnalysis.issues.length := by
  refine ⟨rfl, by norm_num [determineFinalStatus, exAnalysis], rfl, ?_⟩
  norm_num [determineFinalStatus, exAnalysis]

/-- C9 (code bug evidence): with a zero collection period and the manager
not yet running, `Start` reaches the non-positive `NewTicker` abort; it
neither returns the already-running error nor enters the tick loop. -/
theorem managerStart_zero_interval :
    managerStart false 0 = StartOutcome.abortNonPositiveTicker ∧
    StartOutcome.abortNonPositiveTicker ≠ StartOutcome.alreadyRunningErr ∧
    StartOutcome.abortNonPositiveTicker ≠ StartOutcome.loopEntered := by
  refine ⟨rfl, by decide, by decide⟩

/-- C10: a pod reference without a `/` separator parses to namespace
`default` with the whole input as the pod name. -/
theorem parsePodName_no_slash (s : List Char) (h : '/' ∉ s) :
    parsePodName s = ("default".toList, s) := by
  unfold parsePodName
  rw [goSplit_of_not_mem '/' s h]
  rfl

/-- C10 witness: the bare name `nginx`. -/
theorem parsePodName_no_slash_witness :
    ('/' ∉ "nginx".toList) ∧
    parsePodName "nginx".toList = ("default".toList, "nginx".toList) :=
  ⟨by decide, parsePodName_no_slash "nginx".toList (by decide)⟩

/-- C2 counterexample: with no uav resources, the failure message written
is the Chinese `无满足要求的 UAV 节点`, not the claimed English string. -/
theorem processRequest_message_counterexample :
    processRequest exReq [] = some
      { phase := "Failed", assignedNode := "", assignedUAV := "", score := 0
        message := "无满足要求的 UAV 节点" } ∧
    "无满足要求的 UAV 节点" ≠ "no UAV node meets constraints" := by
  refine ⟨by decide, by decide⟩

/-- C3 counterexample: a healthy GPU-less node against constraints with
`requireGPU = false` and `minGPUs = 2` satisfies the claimed predicate but
fails `MeetsConstraints`, because the code checks `minGPUs` even without
`requireGPU`. -/
theorem meetsConstraints_gpu_counterexample :
    claimedMeetsConstraints exNode exConstraints ∧
    MeetsConstraints exNode exConstraints = false := by
  constructor
  · unfold claimedMeetsConstraints exNode exConstraints
    norm_num
  · norm_num [MeetsConstraints, exNode, exConstraints]

/-- C5 counterexample: three pods (two on `n1`, one on `n2`) with a cap of
3 yield only the 2 cross-node pairs; the available intra-node pair is not
used to fill up to the cap, contradicting the claim. -/
theorem selectPodPairs_no_intra_fill :
    (selectPodPairs true exPods 3).length = 2 ∧
    (∃ p ∈ exPods, ∃ q ∈ exPods, p ≠ q ∧ p.nodeName = q.nodeName) ∧
    (∀ pr ∈ selectPodPairs true exPods 3, pr.1.nodeName ≠ pr.2.nodeName) := by
  refine ⟨by decide, ⟨exPodA, by decide, exPodB, by decide, by decide, by decide⟩, by decide⟩

/-- C6 counterexample: a node with 1000 m CPU capacity but a realtime usage
reading of 1500 m gets `cpuUsageRate = 150`, above the claimed bound of
100. -/
theorem buildNodeMetrics_rate_above_100 :
    (buildNodeMetrics exOverNode (some exOverUsage)).cpuUsageRate = 150 ∧
    ¬ (buildNodeMetrics exOverNode (some exOverUsage)).cpuUsageRate ≤ 100 ∧
    0 < (buildNodeMetrics exOverNode (some exOverUsage)).cpuCapacity := by
  refine ⟨by norm_num [buildNodeMetrics, exOverNode, exOverUsage], ?_,
    by norm_num [buildNodeMetrics, exOverNode]⟩
  norm_num [buildNodeMetrics, exOverNode, exOverUsage]

/-- C8 counterexample: a report with empty uav id and source `pull` is
stored with uav id `""` (not the claimed default `uav-<node>`) and source
`pull` (not the claimed `agent`). -/
theorem updateUAVReport_no_default_uavid :
    ((lookupAssoc (UpdateUAVReport (some exReport) 5 exEmptyManager).uavSnapshot "n1").map
      (fun e => e.uavID) = some "") ∧
    ((lookupAssoc (UpdateUAVReport (some exReport) 5 exEmptyManager).uavSnapshot "n1").map
      (fun e => e.source) = some "pull") ∧
    ("" : String) ≠ "uav-n1" ∧ ("pull" : String) ≠ "agent" := by
  refine ⟨by decide, by decide, by decide, by decide⟩

/-- C7: a reconciliation pass never writes to, and never changes, a request
whose phase is non-empty and not `Pending`; a status write implies the
phase was unset, empty or `Pending`. -/
theorem processRequest_frame (req : SchedulingRequest) (uavs : List UAVResource) :
    reconcileFrameSpec req uavs := by
  have hmain : ∀ p, req.phase = some p → p ≠ "" → p ≠ "Pending" →
      processRequest req uavs = none := by
    intro p hp hne hnp
    unfold processRequest
    rw [hp]
    simp [hne, hnp]
  constructor
  · intro p hp hne hnp
    refine ⟨hmain p hp hne hnp, ?_⟩
    unfold reconcileStep
    rw [hmain p hp hne hnp]
  · intro hne
    rcases hphase : req.phase with _ | p
    · exact Or.inl rfl
    · by_cases he : p = ""
      · exact Or.inr (Or.inl (by rw [he]))
      · by_cases hpd : p = "Pending"
        · exact Or.inr (Or.inr (by rw [hpd]))
        · exact absurd (hmain p hphase he hpd) hne

/-- C7 witness: an `Assigned` request is untouched. -/
theorem processRequest_frame_witness :
    processRequest exAssignedReq [] = none ∧ reconcileStep exAssignedReq [] = exAssignedReq :=
  (processRequest_frame exAssignedReq []).1 "Assigned" rfl (by decide) (by decide)

/-- C3 (amended): for a node record with a non-negative GPU count,
`MeetsConstraints` holds iff the claimed conditions do, with the `minGPUs`
bound also enforced without `requireGPU` and label matching reading missing
node labels as the empty string. -/
theorem meetsConstraints_characterization (m : NodeMetrics) (c : ResourceConstraints)
    (hgpu : 0 ≤ m.gpuCount) :
    MeetsConstraints m c = true ↔ meetsConstraintsAmended m c := by
  unfold MeetsConstraints meetsConstraintsAmended
  split_ifs with h1 h2 h3 h4 h5 h6 h7 h8
  · simp only [Bool.false_eq_true, false_iff]
    rintro ⟨hh, -⟩
    simp [h1] at hh
  · simp only [Bool.false_eq_true, false_iff]
    rintro ⟨-, hcpu, -⟩
    exact absurd h2 (not_lt.mpr hcpu)
  · simp only [Bool.false_eq_true, false_iff]
    rintro ⟨-, -, hmem, -⟩
    exact absurd h3 (not_lt.mpr hmem)
  · simp only [Bool.false_eq_true, false_iff]
    rintro ⟨-, -, -, hg1, -⟩
    obtain ⟨hr4, h40⟩ := h4
    have h1g := le_trans (le_max_left 1 c.minGPUs) (hg1 hr4)
    omega
  · simp only [Bool.false_eq_true, false_iff]
    rintro ⟨-, -, -, -, hg2, -⟩
    omega
  · simp only [Bool.false_eq_true, false_iff]
    rintro ⟨-, -, -, -, -, hdisk, -⟩
    exact absurd h6.2 (not_lt.mpr (hdisk h6.1))
  · simp only [Bool.false_eq_true, false_iff]
    rintro ⟨-, -, -, -, -, -, hlat, -⟩
    exact absurd h7.2 (not_lt.mpr (hlat h7.1))
  · simp only [Bool.false_eq_true, false_iff]
    rintro ⟨-, -, -, -, -, -, -, hlab⟩
    obtain ⟨kv, hkv, hf⟩ := List.any_eq_true.mp h8
    exact (of_decide_eq_true hf) (hlab kv hkv)
  · refine iff_of_true rfl
      ⟨?_, not_lt.mp h2, not_lt.mp h3, ?_, not_lt.mp h5, ?_, ?_, ?_⟩
    · revert h1
      cases m.healthy <;> simp
    · intro hreq
      have hg0 : m.gpuCount ≠ 0 := fun h0 => h4 ⟨hreq, h0⟩
      have h1g : (1 : Int) ≤ m.gpuCount := by omega
      exact max_le h1g (not_lt.mp h5)
    · intro hd
      exact not_lt.mp fun hlt => h6 ⟨hd, hlt⟩
    · intro hl
      exact not_lt.mp fun hlt => h7 ⟨hl, hlt⟩
    · intro kv hkv
      by_contra hne
      exact h8 (List.any_eq_true.mpr ⟨kv, hkv, decide_eq_true hne⟩)

/-- C3 witness: a one-GPU labelled node satisfying every check. -/
theorem meetsConstraints_characterization_witness :
    0 ≤ exNode2.gpuCount ∧
    (MeetsConstraints exNode2 exConstraints2 = true ↔
      meetsConstraintsAmended exNode2 exConstraints2) :=
  ⟨by decide, meetsConstraints_characterization exNode2 exConstraints2 (by decide)⟩

/-- Case split of the latency grading thresholds. -/
theorem assessLatency_cases (q : ℚ) :
    (q = 0 → assessLatency q = "unknown") ∧
    (q ≠ 0 → q < 1 → assessLatency q = "excellent") ∧
    (1 ≤ q → q < 5 → assessLatency q = "good") ∧
    (5 ≤ q → q < 50 → assessLatency q = "fair") ∧
    (50 ≤ q → q < 100 → assessLatency q = "poor") ∧
    (100 ≤ q → assessLatency q = "very_poor") := by
  unfold assessLatency
  split_ifs <;>
    refine ⟨?_, ?_, ?_, ?_, ?_, ?_⟩ <;> intros <;>
      first | rfl | contradiction | linarith

/-- C4: the probe statistics are the claimed mean, rate and grade. -/
theorem calculateStats_claim (r : NetworkTestResult) : rttStatsSpec r := by
  unfold rttStatsSpec
  by_cases h0 : r.rttResults.length = 0
  · have hnil : r.rttResults = [] := List.length_eq_zero.mp h0
    have hsucc : successfulResults r.rttResults = [] := by simp [successfulResults, hnil]
    have hcs : calculateStats r =
        { r with averageRTT := 0, successRate := 0, latency := "unknown" } := by
      unfold calculateStats
      rw [if_pos h0]
    refine ⟨?_, ?_, ?_, ?_, ?_, ?_, ?_, ?_, ?_⟩
    · intro hp
      rw [hsucc] at hp
      simp at hp
    · intro hn
      exact absurd hnil hn
    · intro _
      exact ⟨by rw [hcs], by rw [hcs], by rw [hcs]⟩
    · intro _
      rw [hcs]
    · intro hne _
      exact absurd (by rw [hcs]) hne
    · intro h1 _
      rw [hcs] at h1
      norm_num at h1
    · intro h1 _
      rw [hcs] at h1
      norm_num at h1
    · intro h1 _
      rw [hcs] at h1
      norm_num at h1
    · intro h1
      rw [hcs] at h1
      norm_num at h1
  · by_cases hp : 0 < (successfulResults r.rttResults).length
    · have hcs : calculateStats r =
          { r with
            averageRTT := ((successfulResults r.rttResults).map (fun x => x.rtt)).sum /
              ((successfulResults r.rttResults).length : ℚ)
            successRate := ((successfulResults r.rttResults).length : ℚ) /
              (r.rttResults.length : ℚ) * 100
            latency := assessLatency
              (((successfulResults r.rttResults).map (fun x => x.rtt)).sum /
                ((successfulResults r.rttResults).length : ℚ)) } := by
        unfold calculateStats
        rw [if_neg h0, if_pos hp]
      rw [hcs]
      refine ⟨fun _ => rfl, fun _ => rfl, ?_, ?_, ?_, ?_, ?_, ?_, ?_⟩
      · intro hz
        omega
      · exact (assessLatency_cases _).1
      · exact fun h => (assessLatency_cases _).2.1 h
      · exact fun h => (assessLatency_cases _).2.2.1 h
      · exact fun h => (assessLatency_cases _).2.2.2.1 h
      · exact fun h => (assessLatency_cases _).2.2.2.2.1 h
      · exact (assessLatency_cases _).2.2.2.2.2
    · have hlen : (successfulResults r.rttResults).length = 0 := by omega
      have hcs : calculateStats r =
          { r with averageRTT := 0, successRate := 0, latency := assessLatency 0 } := by
        unfold calculateStats
        rw [if_neg h0, if_neg hp]
      rw [hcs]
      have hunk : assessLatency 0 = "unknown" := (assessLatency_cases 0).1 rfl
      refine ⟨?_, ?_, ?_, ?_, ?_, ?_, ?_, ?_, ?_⟩
      · intro hq
        omega
      · intro _
        rw [hlen]
        norm_num
      · intro _
        exact ⟨rfl, rfl, hunk⟩
      · intro _
        exact hunk
      · intro hne _
        exact absurd rfl hne
      · intro h1 _
        norm_num at h1
      · intro h1 _
        norm_num at h1
      · intro h1 _
        norm_num at h1
      · intro h1
        norm_num at h1

/-- C4 witness: one successful 3 ms ping and one failed test. -/
theorem calculateStats_claim_witness :
    rttStatsSpec exTestResult ∧ (calculateStats exTestResult).averageRTT = 3 := by
  refine ⟨calculateStats_claim exTestResult, ?_⟩
  norm_num [calculateStats, exTestResult, successfulResults]

/-- Bounds of `use / cap * 100` for integer inputs. -/
theorem rate_bounds_aux (use cap : Int) (h1 : 0 < cap) (h2 : 0 ≤ use) (h3 : use ≤ cap) :
    0 ≤ (use : ℚ) / (cap : ℚ) * 100 ∧ (use : ℚ) / (cap : ℚ) * 100 ≤ 100 := by
  have hc : (0 : ℚ) < (cap : ℚ) := by exact_mod_cast h1
  have hu : (0 : ℚ) ≤ (use : ℚ) := by exact_mod_cast h2
  have h31 : (use : ℚ) ≤ (cap : ℚ) := by exact_mod_cast h3
  constructor
  · exact mul_nonneg (div_nonneg hu hc.le) (by norm_num)
  · have hdiv : (use : ℚ) / (cap : ℚ) ≤ 1 := (div_le_one hc).mpr h31
    nlinarith

/-- C6 (amended): each usage rate is `usage / capacity × 100` unclamped —
within `[0, 100]` whenever the usage lies between 0 and the capacity — and
zero when the capacity is not positive. -/
theorem buildNodeMetrics_rate_bounds (node : K8sNode) (metric : Option NodeUsage) :
    nodeRateBoundsSpec node metric := by
  unfold nodeRateBoundsSpec buildNodeMetrics
  dsimp only
  refine ⟨?_, ?_, ?_, ?_, ?_, ?_⟩
  · intro h1 h2 h3
    rw [if_pos h1]
    exact rate_bounds_aux _ _ h1 h2 h3
  · intro h1
    rw [if_neg h1]
  · intro h1 h2 h3
    rw [if_pos h1]
    exact rate_bounds_aux _ _ h1 h2 h3
  · intro h1
    rw [if_neg h1]
  · intro h1 h2 h3
    rw [if_pos h1]
    exact rate_bounds_aux _ _ h1 h2 h3
  · intro h1
    rw [if_neg h1]

/-- C6 witness: a node at 25 % CPU. -/
theorem buildNodeMetrics_rate_bounds_witness :
    nodeRateBoundsSpec exNode3 (some exUsage3) ∧
    (buildNodeMetrics exNode3 (some exUsage3)).cpuUsageRate = 25 := by
  refine ⟨buildNodeMetrics_rate_bounds exNode3 (some exUsage3), ?_⟩
  norm_num [buildNodeMetrics, exNode3, exUsage3]

/-- C5 (amended): never more than `maxPairs` pairs; the cross-node phase
produces only cross-node pairs; an intra-node pair appears in the result
only when the cross-node phase collected nothing. -/
theorem selectPodPairs_spec (b : Bool) (pods : List ProbePod) (maxPairs : Nat) :
    pairSelectionSpec b pods maxPairs := by
  unfold pairSelectionSpec
  have hcross : ∀ pr ∈ crossOuter maxPairs pods [], pr.1.nodeName ≠ pr.2.nodeName :=
    crossOuter_cross maxPairs pods [] (by simp)
  refine ⟨?_, hcross, ?_⟩
  · unfold selectPodPairs
    by_cases hb : b = false
    · rw [if_pos hb]
      simp
    · rw [if_neg hb]
      by_cases hlen : pods.length < 2
      · rw [if_pos hlen]
        simp
      · rw [if_neg hlen]
        dsimp only
        by_cases hz : (crossOuter maxPairs pods []).length = 0
        · rw [if_pos hz]
          exact fillOuter_length maxPairs pods [] (by simp)
        · rw [if_neg hz]
          exact crossOuter_length maxPairs pods [] (by simp)
  · rintro ⟨pr, hpr, heq⟩
    unfold selectPodPairs at hpr
    by_cases hb : b = false
    · rw [if_pos hb] at hpr
      simp at hpr
    · rw [if_neg hb] at hpr
      by_cases hlen : pods.length < 2
      · rw [if_pos hlen] at hpr
        simp at hpr
      · rw [if_neg hlen] at hpr
        dsimp only at hpr
        by_cases hz : (crossOuter maxPairs pods []).length = 0
        · exact List.length_eq_zero.mp hz
        · rw [if_neg hz] at hpr
          exact absurd heq (hcross pr hpr)

/-- C5 witness: the three-pod input under a cap of 3. -/
theorem selectPodPairs_spec_witness :
    pairSelectionSpec true exPods 3 ∧ (selectPodPairs true exPods 3).length ≤ 3 :=
  ⟨selectPodPairs_spec true exPods 3, by decide⟩

/-- C8 (amended): `UpdateUAVReport` is a no-op on a nil report or empty
node name, and otherwise stores the entry with the timestamp, status and
source defaults (the uav id as given), updates the heartbeat, and leaves
other nodes untouched. -/
theorem updateUAVReport_effects {σ : Type} (r : UAVReport σ) (now : Int)
    (m : ManagerUAVState σ) : updateUAVReportSpec r now m := by
  unfold updateUAVReportSpec
  refine ⟨rfl, ?_, ?_⟩
  · intro h
    unfold UpdateUAVReport
    dsimp only
    rw [if_pos h]
  · intro h
    unfold UpdateUAVReport
    dsimp only
    rw [if_neg h]
    dsimp only
    refine ⟨lookupAssoc_upsert_self _ _ _, lookupAssoc_upsert_self _ _ _, ?_⟩
    intro k hk
    exact ⟨lookupAssoc_upsert_ne _ _ _ _ hk, lookupAssoc_upsert_ne _ _ _ _ hk⟩

/-- C8 witness: a fully populated report stored under `n2`. -/
theorem updateUAVReport_effects_witness :
    exReport2.nodeName ≠ "" ∧
    lookupAssoc (UpdateUAVReport (some exReport2) 7 exEmptyManager).uavLastHeartbeat "n2" =
      some 100 := by
  refine ⟨by decide, ?_⟩
  have h := ((updateUAVReport_effects exReport2 7 exEmptyManager).2.2 (by decide)).2.1
  simpa [exReport2] using h

/-- C2 (amended): one `processRequest` run on a pending request with a
non-empty workload reference filters and scores uav candidates as claimed,
writes the `Failed` status with message `无满足要求的 UAV 节点` when none
remain, and otherwise assigns the first candidate of maximal score with
message `选中节点 <node> (电量 <battery>%)`. -/
theorem processRequest_pending_assignment (req : SchedulingRequest)
    (spec : SchedulingRequestSpec) (uavs : List UAVResource)
    (hspec : req.spec = some spec)
    (hphase : req.phase = none ∨ req.phase = some "" ∨ req.phase = some "Pending")
    (hname : spec.workload.name ≠ "") (hns : spec.workload.nspace ≠ "") :
    schedulerPassSpec req spec uavs := by
  have hproc : processRequest req uavs =
      match sortDesc (buildCandidates spec uavs) with
      | [] => some (writtenStatus
          { phase := "Failed", assignedNode := "", assignedUAV := "", score := 0
            message := "无满足要求的 UAV 节点" })
      | chosen :: _ => some (writtenStatus
          { phase := "Assigned", assignedNode := chosen.nodeName
            assignedUAV := chosen.uavID, score := chosen.score
            message := "选中节点 " ++ chosen.nodeName ++ " (电量 " ++
              fmtFixed1 chosen.battery ++ "%)" }) := by
    have hskip : (match req.phase with
        | some p => (p != "") && (p != "Pending")
        | none => false) = false := by
      rcases hphase with h | h | h <;> simp [h]
    unfold processRequest
    dsimp only
    rw [hskip, hspec]
    simp only [Bool.false_eq_true, if_false]
    rw [if_neg (fun hor => hor.elim hname hns)]
  unfold schedulerPassSpec
  refine ⟨?_, ?_, ?_⟩
  · intro c
    rw [mem_buildCandidates]
    constructor
    · rintro ⟨u, hu, h1, h2, h3, rfl⟩
      exact ⟨u, hu, h1, h2, h3, rfl⟩
    · rintro ⟨u, hu, h1, h2, h3, rfl⟩
      exact ⟨u, hu, h1, h2, h3, rfl⟩
  · intro hempty
    rw [hproc, hempty]
    simp [sortDesc, writtenStatus]
  · intro hne
    have hsort : sortDesc (buildCandidates spec uavs) ≠ [] := sortDesc_ne_nil hne
    obtain ⟨chosen, rest, hs⟩ : ∃ ch r, sortDesc (buildCandidates spec uavs) = ch :: r := by
      cases hsx : sortDesc (buildCandidates spec uavs) with
      | nil => exact absurd hsx hsort
      | cons a b => exact ⟨a, b, rfl⟩
    have hhead : firstMaxScore (buildCandidates spec uavs) = some chosen := by
      rw [← head?_sortDesc, hs]
      rfl
    obtain ⟨l1, l2, hdec, hlt, hle⟩ := firstMaxScore_spec _ _ hhead
    refine ⟨chosen, l1, l2, hdec, hlt, hle, ?_⟩
    rw [hproc, hs]
    simp [writtenStatus]

/-- C2 witness: scenario 4 — `node-a` at 80 % is the only candidate under
a 50 % battery floor. -/
theorem processRequest_pending_assignment_witness :
    exReq.spec = some exSpec ∧ exReq.phase = some "Pending" ∧
    exSpec.workload.name ≠ "" ∧ exSpec.workload.nspace ≠ "" ∧
    schedulerPassSpec exReq exSpec exUAVs :=
  ⟨rfl, rfl, by decide, by decide,
    processRequest_pending_assignment exReq exSpec exUAVs rfl
      (Or.inr (Or.inr rfl)) (by decide) (by decide)⟩
